import Mathlib

/-!
# Verification of the NetLifeGuru router against its specification

Shallow embedding of the router's core (segment matchers, route-pattern
compiler, method bitmask, radix tree, request context pool, dispatcher)
translated from the Go sources:

* `router.go`   (the current section, lines 1-801: types, compiler,
  `HandleFunc`, `maskToAllowHeader`, `write405`, `secondaryRecover`,
  `ServeHTTP`),
* `radix.go`    (lines 1-130: `insert`, `matchPrefixWithStarStr`, `dfs`),
* `context.go`  (lines 55-223: `Context`, `SetParams`, `Param`, `reset`,
  `GetContext`, `PutContext`),
* the middleware file (`Use`, `wrap`) and the matcher file
  (`FunctionMatchers`, `PatternMatchers`, `isDigits`, ...).

Go strings are modelled as `List Char` where the code iterates bytes; every
string reaching the byte loops in the verified scenarios is ASCII, where the
byte- and character-level readings agree.  Handlers and middleware are
modelled as genuine functions over the request context and an ordered log of
response writes; panics are explicit outcomes.  The Go `net/http` plumbing,
logging, file serving and listener management are external collaborators and
are not modelled.
-/

namespace NLG

/-! ## Segment matchers (matcher file, second section, lines 476-766)

Each matcher is a pure whole-segment predicate.  The Go code iterates bytes
(`s[i]`); for the ASCII ranges tested a non-ASCII character fails the range
check in both readings, so the character-level translation agrees with the
byte-level original on every input. -/

/-- Go `unicode.IsLetter` (standard library, external to this repository),
modelled by the ASCII letter predicate.  The development only uses the value
of the matchers built on it at the empty string, which is independent of the
character predicate. -/
def unicodeIsLetter (c : Char) : Bool := c.isAlpha

/-- Go `unicode.IsDigit` (standard library, external), modelled by the ASCII
digit predicate; same caveat as `unicodeIsLetter`. -/
def unicodeIsDigit (c : Char) : Bool := c.isDigit

/-- `MatchFunc` from the matcher file. -/
abbrev MatchFunc := String → Bool

def isAny (_s : String) : Bool := true

def isLowerAlpha (s : String) : Bool :=
  if s = "" then false
  else s.data.all (fun c => 'a' ≤ c && c ≤ 'z')

def isUpperAlpha (s : String) : Bool :=
  if s = "" then false
  else s.data.all (fun c => 'A' ≤ c && c ≤ 'Z')

def isAlpha (s : String) : Bool :=
  if s = "" then false
  else s.data.all unicodeIsLetter

def isDigits (s : String) : Bool :=
  if s = "" then false
  else s.data.all (fun c => '0' ≤ c && c ≤ '9')

def isAlnum (s : String) : Bool :=
  if s = "" then false
  else s.data.all (fun c => unicodeIsLetter c || unicodeIsDigit c)

def isWord (s : String) : Bool :=
  if s = "" then false
  else s.data.all (fun c =>
    ('a' ≤ c && c ≤ 'z') || ('A' ≤ c && c ≤ 'Z') || ('0' ≤ c && c ≤ '9') || c = '_')

def isWordChar (c : Char) : Bool :=
  ('a' ≤ c && c ≤ 'z') || ('A' ≤ c && c ≤ 'Z') || ('0' ≤ c && c ≤ '9') || c = '_'

def isSlugSafe (s : String) : Bool :=
  if s = "" then false
  else s.data.all (fun c => isWordChar c || c = '-')

def isSlug (s : String) : Bool :=
  if s = "" then false
  else s.data.all (fun c => ('a' ≤ c && c ≤ 'z') || ('0' ≤ c && c ≤ '9') || c = '-')

def alwaysTrue (_s : String) : Bool := true

def isHex (s : String) : Bool :=
  if s = "" then false
  else s.data.all (fun c =>
    ('0' ≤ c && c ≤ '9') || ('a' ≤ c && c ≤ 'f') || ('A' ≤ c && c ≤ 'F'))

/-- Go `strings.Split` on a single-character separator: split at every
occurrence, keeping empty parts (`strings.Split("", "-") = [""]`). -/
def splitOnChar (sep : Char) : List Char → List Char → List String
  | [], cur => [String.mk cur.reverse]
  | c :: rest, cur =>
    if c = sep then String.mk cur.reverse :: splitOnChar sep rest []
    else splitOnChar sep rest (c :: cur)

/-- `isUUID`: Go splits on `-` and requires five groups of lengths
8-4-4-4-12, each hexadecimal.  `isHex ""` is false, so empty groups fail
(in particular `isUUID "" = false`: the split yields one empty group). -/
def isUUID (s : String) : Bool :=
  let parts := splitOnChar '-' s.data []
  if parts.length ≠ 5 then false
  else
    (List.zip parts [8, 4, 4, 4, 12]).all
      (fun pl => pl.1.length = pl.2 && isHex pl.1)

def isSafeText (s : String) : Bool :=
  if s = "" then false
  else s.data.all (fun c =>
    ('a' ≤ c && c ≤ 'z') || ('A' ≤ c && c ≤ 'Z') || ('0' ≤ c && c ≤ '9') ||
    c = ' ' || c = '_' || c = '.' || c = '-')

def isUpperAlnum (s : String) : Bool :=
  if s = "" then false
  else s.data.all (fun c => ('A' ≤ c && c ≤ 'Z') || ('0' ≤ c && c ≤ '9'))

def isBase64 (s : String) : Bool :=
  if s = "" then false
  else s.data.all (fun c =>
    ('a' ≤ c && c ≤ 'z') || ('A' ≤ c && c ≤ 'Z') || ('0' ≤ c && c ≤ '9') ||
    c = '+' || c = '/' || c = '=')

/-- `isDateYMD`: exactly ten characters, dashes at positions 4 and 7, digits
elsewhere (no calendar validation). -/
def isDateYMD (s : String) : Bool :=
  if s.length ≠ 10 then false
  else if s.data.getD 4 ' ' ≠ '-' || s.data.getD 7 ' ' ≠ '-' then false
  else (List.range 10).all (fun i =>
    i = 4 || i = 7 ||
      (('0' ≤ s.data.getD i ' ') && (s.data.getD i ' ' ≤ '9')))

def isSafePath (s : String) : Bool :=
  if s = "" then false
  else s.data.all (fun c =>
    ('a' ≤ c && c ≤ 'z') || ('A' ≤ c && c ≤ 'Z') || ('0' ≤ c && c ≤ '9') ||
    c = '/' || c = '.' || c = '_' || c = '-')

/-- `FunctionMatchers` (matcher file, lines 484-501), the name-keyed table,
as an association list in source order; the Go map is only ever used for
keyed lookup, which the association list reproduces. -/
def FunctionMatchers : List (String × MatchFunc) :=
  [("isLowerAlpha", isLowerAlpha),
   ("isUpperAlpha", isUpperAlpha),
   ("isAlpha", isAlpha),
   ("isDigits", isDigits),
   ("isAlnum", isAlnum),
   ("isWord", isWord),
   ("isSlugSafe", isSlugSafe),
   ("isSlug", isSlug),
   ("isHex", isHex),
   ("isUUID", isUUID),
   ("isSafeText", isSafeText),
   ("isUpperAlnum", isUpperAlnum),
   ("isBase64", isBase64),
   ("isDateYMD", isDateYMD),
   ("isSafePath", isSafePath),
   ("any", isAny)]

/-- `PatternMatchers` (matcher file, lines 503-521), the regex-shape-keyed
table, in source order. -/
def PatternMatchers : List (String × MatchFunc) :=
  [("[a-z]+", isLowerAlpha),
   ("[A-Z]+", isUpperAlpha),
   ("[a-zA-Z]+", isAlpha),
   ("[0-9]+", isDigits),
   ("\\d+", isDigits),
   ("[a-zA-Z0-9]+", isAlnum),
   ("\\w+", isWord),
   ("[\\w\\-]+", isSlugSafe),
   ("[a-z0-9\\-]+", isSlug),
   ("[a-fA-F0-9]+", isHex),
   ("8-4-4-4-12", isUUID),
   ("[a-zA-Z0-9 _.-]+", isSafeText),
   ("[A-Z0-9]+", isUpperAlnum),
   ("a-zA-Z0-9+/=", isBase64),
   ("\\d\x7b4\x7d-\\d\x7b2\x7d-\\d\x7b2\x7d", isDateYMD),
   ("[a-zA-Z0-9/._-]+", isSafePath),
   (".*", alwaysTrue)]

/-- Keyed lookup in a matcher table (the Go `table[key]` map access). -/
def matcherLookup (table : List (String × MatchFunc)) (key : String) :
    Option MatchFunc :=
  (table.find? (fun kv => kv.1 = key)).map (fun kv => kv.2)

/-! ## Method bitmask (method file, lines 11-139)

`GET = 1<<0 .. ANY = 1<<7`; `methodMap` keys method names to their bits.
`MethodsToBitmask` parses a space-separated method list, returning `-1` on an
unknown token (fatal at registration) and `127` (all seven concrete-method
bits) as soon as it sees `ANY`. -/

def GET : Nat := 1
def POST : Nat := 2
def PUT : Nat := 4
def DELETE : Nat := 8
def PATCH : Nat := 16
def HEAD : Nat := 32
def OPTIONS : Nat := 64
def ANY : Nat := 128

def methodMap : List (String × Nat) :=
  [("GET", GET), ("POST", POST), ("PUT", PUT), ("DELETE", DELETE),
   ("PATCH", PATCH), ("HEAD", HEAD), ("OPTIONS", OPTIONS), ("ANY", ANY)]

/-- `getMethodIndex`: map lookup, `-128` for an unknown method. -/
def getMethodIndex (method : String) : Int :=
  match methodMap.find? (fun kv => kv.1 = method) with
  | some kv => Int.ofNat kv.2
  | none => -128

/-- `indexToBit`: bit position of a method constant, default 7 (the Go switch
falls through to 7 for anything that is not one of the eight constants). -/
def indexToBit (i : Int) : Nat :=
  if i = 1 then 0 else if i = 2 then 1 else if i = 4 then 2
  else if i = 8 then 3 else if i = 16 then 4 else if i = 32 then 5
  else if i = 64 then 6 else 7

/-- `getBitmaskIndex` (request-side): switch on the concrete request method,
default 0 — an unknown (or `ANY`) request method matches nothing. -/
def getBitmaskIndex (m : String) : Nat :=
  if m = "GET" then 1 else if m = "POST" then 2 else if m = "PUT" then 4
  else if m = "DELETE" then 8 else if m = "PATCH" then 16
  else if m = "HEAD" then 32 else if m = "OPTIONS" then 64 else 0

/-- Maximal runs of non-separator characters, in order, the shape computed by
both the byte loop of `MethodsToBitmask` (separator `' '`, trailing run
included) and `splitPath` (separator `'/'`). -/
def splitRuns (sep : Char) : List Char → List Char → List String
  | [], cur => if cur ≠ [] then [String.mk cur.reverse] else []
  | c :: rest, cur =>
    if c ≠ sep then splitRuns sep rest (c :: cur)
    else if cur ≠ [] then String.mk cur.reverse :: splitRuns sep rest []
    else splitRuns sep rest []

/-- The token loop of `MethodsToBitmask` (method file, lines 99-138).  `seen`
models the `[8]bool` dedup array; the Go trailing-token block tests `seen`
without setting it, which cannot change the result (the OR is idempotent and
the loop ends there). -/
def mtbLoop : List String → Nat → (Nat → Bool) → Int
  | [], bitmask, _ => Int.ofNat bitmask
  | tok :: rest, bitmask, seen =>
    let index := getMethodIndex tok
    if index = 128 then 127
    else if index < 0 then -1
    else
      let b := indexToBit index
      if seen b then mtbLoop rest bitmask seen
      else mtbLoop rest (bitmask ||| index.toNat) (fun j => if j = b then true else seen j)

def MethodsToBitmask (methods : String) : Int :=
  mtbLoop (splitRuns ' ' methods.data []) 0 (fun _ => false)

/-! ## Route-pattern compiler (router.go 126-301) -/

/-- The `_STRING/_PATTERN/_MATCH/_SUBMATCH` pattern-kind constants
(router.go 126-131), as an enumeration. -/
inductive PType where
  | STRING
  | PATTERN
  | MATCH
  | SUBMATCH
  deriving DecidableEq

/-- `Pattern` (router.go 55-60).  `fn` is the `Fn` named-matcher field (Go
`nil` is modelled by the never-consulted constant-false function); `regex`
models the compiled `RegexCompiled`: its value on `s` is
`RegexCompiled.MatchString(s)` for `_MATCH` patterns and the nonemptiness of
`RegexCompiled.FindStringSubmatch(s)` for `_SUBMATCH` patterns — for the
anchored `^пat$`-style compilation both coincide with whole-string
acceptance. -/
structure Pattern where
  slug : String
  type : PType
  fn : MatchFunc
  regex : MatchFunc

/-- The standard regex engine, an external collaborator (spec §1: "a standard
regex engine is used as a fallback, not rebuilt").  `ok pt` models whether
`syntax.Parse(pt, syntax.PerlX)` succeeds; `accepts pt s` models the anchored
`regexp.MustCompile("^" + pt + "$")` accepting `s`.  Every route in the
verified scenarios resolves through the named-matcher tables, so no theorem
below depends on a particular engine. -/
structure RegexEngine where
  ok : String → Bool
  accepts : String → String → Bool

/-- Modelled from the spec: `countCaptureGroups` is called by `parseSlug`
(router.go:189) but its definition is not among the provided sources.  Spec
§4.1 compiles a pattern as an anchored submatch pattern exactly when it
"contains a capturing group"; in Go regex syntax a capturing group opens with
a parenthesis not followed by `?`.  This definition counts those openings
(escaped parentheses are not distinguished; no pattern in this development
contains a parenthesis, so every use below yields 0 under any reading). -/
def countCaptureGroupsAux : List Char → Nat
  | [] => 0
  | '(' :: '?' :: rest => countCaptureGroupsAux rest
  | '(' :: rest => countCaptureGroupsAux rest + 1
  | _ :: rest => countCaptureGroupsAux rest

def countCaptureGroups (pt : String) : Nat := countCaptureGroupsAux pt.data

/-- `removeWrapper` (router.go 135-145): strip one enclosing
`start[0] ... end[0]` pair when present. -/
def removeWrapper (s : String) (start fin : String) : String :=
  if s.data.length ≥ 2 && s.data.headD ' ' = start.data.headD ' ' &&
      s.data.getLastD ' ' = fin.data.headD ' ' then
    String.mk ((s.data.drop 1).dropLast)
  else s

/-- `findPatterns` (router.go 147-159): try the regex-shape table, then the
name table, after unwrapping one pair of parentheses. -/
def findPatterns (str : String) : Option MatchFunc :=
  let possibleRegExpPattern := removeWrapper str "(" ")"
  match matcherLookup PatternMatchers possibleRegExpPattern with
  | some pattern => some pattern
  | none => matcherLookup FunctionMatchers possibleRegExpPattern

/-- `parseSlug` (router.go 161-217).  `none` models the fatal
`os.Exit(3)` paths (explicitly empty pattern, malformed regular expression);
otherwise the result is the `Pattern` together with the updated
`isStatic` and `reqValidation` flags. -/
def parseSlug (re : RegexEngine) (isStatic reqValidation : Bool)
    (s _url : String) : Option (Pattern × Bool × Bool) :=
  let cs := s.data
  if cs.length ≥ 2 &&
      ((cs.headD ' ' = '<' && cs.getLastD ' ' = '>') ||
       (cs.headD ' ' = '\x7b' && cs.getLastD ' ' = '\x7d')) then
    let str : List Char := (cs.drop 1).dropLast
    let name : List Char :=
      match str.findIdx? (fun c => c = ':') with
      | some i => str.take i
      | none => str
    let pt : String :=
      match str.findIdx? (fun c => c = ':') with
      | some i => if i + 1 < str.length then String.mk (str.drop (i + 1)) else ""
      | none => "any"
    if pt = "" then none
    else
      let reqValidation := if pt ≠ "any" then true else reqValidation
      if countCaptureGroups pt > 0 then
        if ¬ re.ok pt then none
        else some ({ slug := String.mk name, type := .SUBMATCH,
                     fn := fun _ => false, regex := re.accepts pt },
                   false, reqValidation)
      else
        match findPatterns pt with
        | some f =>
            some ({ slug := String.mk name, type := .PATTERN, fn := f,
                    regex := fun _ => false }, false, reqValidation)
        | none =>
            if ¬ re.ok pt then none
            else some ({ slug := String.mk name, type := .MATCH,
                         fn := fun _ => false, regex := re.accepts pt },
                       false, reqValidation)
  else
    some ({ slug := s, type := .STRING, fn := fun _ => false,
            regex := fun _ => false }, isStatic, reqValidation)

/-- `splitPath` (router.go 219-239): maximal non-`'/'` runs. -/
def splitPath (path : String) : List String := splitRuns '/' path.data []

/-- `preparePattern` (router.go 241-278): compile each segment, building the
pattern list, the static and validation flags, and the wildcard skeleton
(`radixURL`) in which every non-static segment becomes `*`.  The unused
`first` return of the Go function is dropped (its caller discards it). -/
def preparePattern (re : RegexEngine) (url : String) :
    Option (List Pattern × Bool × Bool × String) :=
  let step := fun (acc : Option (List Pattern × Bool × Bool × List String))
      (seg : String) =>
    match acc with
    | none => none
    | some (patterns, isStatic, reqValidation, parts) =>
      if seg = "" then some (patterns, isStatic, reqValidation, parts)
      else
        match parseSlug re isStatic reqValidation seg url with
        | none => none
        | some (p, st, rv) =>
          let slugPart := if p.type ≠ .STRING then "*" else p.slug
          some (patterns ++ [p], st, rv, parts ++ [slugPart])
  match (splitPath url).foldl step (some ([], true, false, [])) with
  | none => none
  | some (patterns, isStatic, reqValidation, parts) =>
    some (patterns, isStatic, reqValidation,
          "/" ++ String.intercalate "/" parts)

/-! ## Route entries and the radix tree (router.go 75-83, radix.go 1-130) -/

/-- `RouteEntry` (router.go 75-81).  Go stores the handler closure in the
entry; closures are not comparable, so the embedding keys handlers by a
numeric id resolved through the router's handler table at exactly the places
where the source invokes `entry.Handler`.  `Bitmask` is a Go `int` whose
negative sentinel is rejected by `HandleFunc` before an entry is built, so
the stored mask is a natural number. -/
structure RouteEntry where
  route : String
  patterns : List Pattern
  handlerId : Nat
  bitmask : Nat
  validation : Bool

/-- The Go zero value `RouteEntry{}` produced by a missed
`staticRoutes[p]` map lookup. -/
def emptyRouteEntry : RouteEntry :=
  { route := "", patterns := [], handlerId := 0, bitmask := 0,
    validation := false }

/-! `RadixNode` (radix.go 3-8).  The `children []*RadixNode` slice is a
mutually inductive list so that the tree functions are structurally
recursive (and hence computable by the kernel). -/
mutual
inductive RadixNode : Type where
  | node (pfx : List Char) (children : RadixChildren) (isLeaf : Bool)
      (entries : List RouteEntry)
inductive RadixChildren : Type where
  | nil
  | cons (hd : RadixNode) (tl : RadixChildren)
end

/-- `append` on the children slice
(`node.children = append(node.children, ...)`). -/
def childrenAppend : RadixChildren → RadixNode → RadixChildren
  | .nil, n => .cons n .nil
  | .cons h t, n => .cons h (childrenAppend t n)

/-- `longestCommonPrefixStr` (radix.go 14-24). -/
def lcpChars : List Char → List Char → Nat
  | a :: as, b :: bs => if a = b then lcpChars as bs + 1 else 0
  | _, _ => 0

/-- `matchPrefixWithStarStr` (radix.go 26-47): walk the stored prefix; a
`'*'` consumes key bytes up to (not including) the next `'/'` — possibly
zero bytes — and every literal byte must match exactly.  `some j` is the Go
`(j, true)` (consumed key bytes); `none` is `(0, false)`. -/
def matchPrefixWithStar : List Char → List Char → Option Nat
  | [], _ => some 0
  | c :: ps, k =>
    if c = '*' then
      let skipped := (k.takeWhile (fun x => x ≠ '/')).length
      match matchPrefixWithStar ps (k.drop skipped) with
      | some j => some (skipped + j)
      | none => none
    else
      match k with
      | [] => none
      | x :: k2 =>
        if c = x then (matchPrefixWithStar ps k2).map (· + 1) else none

/-! Tree size, the fuel bound for `insert`. -/
mutual
def RadixNode.size : RadixNode → Nat
  | .node _ cs _ _ => 1 + RadixChildren.size cs
def RadixChildren.size : RadixChildren → Nat
  | .nil => 0
  | .cons h t => RadixNode.size h + RadixChildren.size t
end

/-! `insert` (radix.go 49-85), fuelled.  Every recursive Go call either
consumes at least one key byte (`insert(child, key[lcp:])` has `lcp ≥ 1`
because the first bytes agree) or advances over one stored child, so the
recursion depth is bounded by `key length + tree size`; the wrapper
`insertNode` passes fuel strictly above that bound, making fuel exhaustion
(which would return the tree unchanged) unreachable.  `insertLFuel` walks the
children; `none` means no child shared a prefix, in which case the caller
appends a fresh leaf holding the whole remaining key (radix.go 84). -/
mutual
def insertNFuel : Nat → RadixNode → List Char → RouteEntry → RadixNode
  | 0, n, _, _ => n
  | fuel + 1, .node pfx cs leaf es, key, entry =>
    match insertLFuel fuel cs key entry with
    | some cs2 => .node pfx cs2 leaf es
    | none => .node pfx (childrenAppend cs (.node key .nil true [entry])) leaf es
def insertLFuel : Nat → RadixChildren → List Char → RouteEntry →
    Option RadixChildren
  | 0, _, _, _ => none
  | _ + 1, .nil, _, _ => none
  | fuel + 1, .cons child rest, key, entry =>
    match child with
    | .node cpfx ccs cleaf ces =>
      if cpfx.length = 0 || key.headD ' ' ≠ cpfx.headD ' ' then
        (insertLFuel fuel rest key entry).map (RadixChildren.cons child)
      else
        let lcp := lcpChars cpfx key
        if lcp = 0 then
          (insertLFuel fuel rest key entry).map (RadixChildren.cons child)
        else if lcp = cpfx.length && lcp = key.length then
          -- exact full match: append the entry at this leaf
          some (.cons (.node cpfx ccs true (ces ++ [entry])) rest)
        else
          -- split the child when the shared prefix is shorter than its
          -- stored prefix (radix.go 63-74)
          let child1 : RadixNode :=
            if lcp < cpfx.length then
              .node (cpfx.take lcp)
                (.cons (.node (cpfx.drop lcp) ccs cleaf ces) .nil) false []
            else .node cpfx ccs cleaf ces
          if lcp < key.length then
            some (.cons (insertNFuel fuel child1 (key.drop lcp) entry) rest)
          else
            match child1 with
            | .node p1 c1 _ e1 =>
              some (.cons (.node p1 c1 true (e1 ++ [entry])) rest)
end

/-- `insertNode` (radix.go 10-12): insert at the root with sufficient fuel. -/
def insertNode (root : RadixNode) (key : String) (entry : RouteEntry) :
    RadixNode :=
  insertNFuel (key.length + RadixNode.size root + 2) root key.data entry

/-! `dfs` (radix.go 91-130).  At each node the literal children are tried
first (`starPass = false` skips `'*'`-led prefixes and requires the first
bytes to agree) and the wildcard-led children afterwards (`starPass = true`).
Each pass appends, in child order, the entries of every leaf reached by full
key consumption; the Bool is the Go `found` flag. -/
mutual
def dfsN : RadixNode → List Char → List RouteEntry × Bool
  | .node _ cs leaf es, k =>
    if k = [] then (if leaf then (es, true) else ([], false))
    else
      let lit := dfsL cs k false
      let star := dfsL cs k true
      (lit.1 ++ star.1, lit.2 || star.2)
def dfsL : RadixChildren → List Char → Bool → List RouteEntry × Bool
  | .nil, _, _ => ([], false)
  | .cons ch rest, k, starPass =>
    let here : List RouteEntry × Bool :=
      match ch with
      | .node cpfx _ _ _ =>
        if cpfx.length = 0 then ([], false)
        else if starPass then
          if cpfx.headD ' ' ≠ '*' then ([], false)
          else
            match matchPrefixWithStar cpfx k with
            | some cons2 => dfsN ch (k.drop cons2)
            | none => ([], false)
        else
          if cpfx.headD ' ' = '*' then ([], false)
          else if k.headD ' ' ≠ cpfx.headD ' ' then ([], false)
          else
            match matchPrefixWithStar cpfx k with
            | some cons2 => dfsN ch (k.drop cons2)
            | none => ([], false)
    let there := dfsL rest k starPass
    (here.1 ++ there.1, here.2 || there.2)
end

/-- `searchAll` (radix.go 87-89): run the DFS from the root; the entries are
those appended to `ctx.Entries`, the Bool is the return value. -/
def searchAll (root : RadixNode) (key : String) : List RouteEntry × Bool :=
  dfsN root key.data

/-! ## Request context and pool (context.go 55-223)

Go slices carry a length and a backing capacity; the embedding keeps the
element list plus an explicit capacity field for each of the three pooled
slices (`reset` and `SetParams` are the only functions whose behaviour
depends on capacities; appends elsewhere leave the model capacities
untouched, which no theorem relies on).  `Data` is the type-erased
per-request map; its boxed values are abstracted to numbers because no
verified claim inspects them.  The `Par` and `Seg` wrapper structs become
pairs and plain strings. -/

structure Ctx where
  params : List (String × String)
  paramsCap : Nat
  segments : List String
  segmentsCap : Nat
  data : List (String × Nat)
  entries : List RouteEntry
  entriesCap : Nat
  paramMap : Option (List (String × String))
  aborted : Bool

/-- The fresh `Context` produced by the pool's `New` (context.go 204-213):
empty collections with capacity 8, empty `Data`. -/
def newCtx : Ctx :=
  { params := [], paramsCap := 8, segments := [], segmentsCap := 8,
    data := [], entries := [], entriesCap := 8, paramMap := none,
    aborted := false }

/-- `reset` (context.go 154-202): clear `aborted`; zero and truncate
`Params`/`Segments`/`Entries` to length zero (capacity kept); delete every
`Data` key; then replace any backing slice whose capacity exceeds 1024 by a
fresh one of capacity 8; finally drop the memoized `paramMap`. -/
def Ctx.reset (c : Ctx) : Ctx :=
  { params := [],
    paramsCap := if c.paramsCap > 1024 then 8 else c.paramsCap,
    segments := [],
    segmentsCap := if c.segmentsCap > 1024 then 8 else c.segmentsCap,
    data := [],
    entries := [],
    entriesCap := if c.entriesCap > 1024 then 8 else c.entriesCap,
    paramMap := none,
    aborted := false }

/-- `GetContext` (context.go 215-219): take a context from the pool and reset
it.  The parameter ranges over everything the pool can yield — a fresh
`newCtx` or any previously `PutContext`-released context in an arbitrary
state. -/
def GetContext (c : Ctx) : Ctx := c.reset

/-- The loop of `SetParams` (context.go 115-125): walk the winning entry's
patterns positionally, skipping `_STRING` patterns, stopping at the end of
the captured segments, binding each parameter slug to its segment. -/
def setParamsLoop (segs : List String) :
    List Pattern → Nat → List (String × String) → List (String × String)
  | [], _, acc => acc
  | p :: rest, depth, acc =>
    if p.type = .STRING then setParamsLoop segs rest (depth + 1) acc
    else if depth ≥ segs.length then acc
    else setParamsLoop segs rest (depth + 1) (acc ++ [(p.slug, segs.getD depth "")])

/-- `SetParams` (context.go 101-126): lazily materialize `Params` from
`Entries[0]` and the captured segments; a no-op when parameters are already
present or no entry was recorded.  When the backing capacity is below the
pattern count a fresh slice of that capacity is allocated. -/
def Ctx.SetParams (c : Ctx) : Ctx :=
  if c.params.length > 0 then c
  else
    match c.entries with
    | [] => c
    | entry :: _ =>
      { c with
        params := setParamsLoop c.segments entry.patterns 0 [],
        paramsCap :=
          if c.paramsCap < entry.patterns.length then entry.patterns.length
          else c.paramsCap }

/-- `Param` (context.go 128-138): materialize, then return the first binding
for the name, or `("", false)`. -/
def Ctx.Param (c : Ctx) (key : String) : String × Bool :=
  let c2 := c.SetParams
  match c2.params.find? (fun pr => pr.1 = key) with
  | some pr => (pr.2, true)
  | none => ("", false)

/-! ## Router, middleware, handlers (router.go 26-114, middleware file 17-28)

A handler is a function from the request context and the ordered log of
writes already issued on the `ResponseWriter` to an outcome: a normal return
with the final log, or a panic carrying the log written before the panic.
Requests are reduced to their (method, path) pair — the only parts of
`*http.Request` the dispatcher consults. -/

/-- One observable write on the response: a status line
(`WriteHeader`), a body write, or a header set.  `http.Error(w, msg, code)`
is modelled as the status followed by the message body. -/
inductive Write where
  | status (code : Nat)
  | bodyText (s : String)
  | header (k v : String)
  deriving DecidableEq

/-- Outcome of running a handler. -/
inductive HRes where
  | ok (w : List Write)
  | panicked (w : List Write)

/-- `HandlerFunc` (router.go 28), with the request abstracted away: handlers
in the verified scenarios only read the context and write responses. -/
abbrev HandlerFunc := Ctx → List Write → HRes

/-- `Middleware` (middleware file, line 17). -/
abbrev Middleware := HandlerFunc → HandlerFunc

/-- `Router` (router.go 85-96) restricted to the dispatch-relevant fields;
`mux`, the static-file map, the prefix segment, the readiness flag and the
terminal-output toggle do not affect `ServeHTTP` and are omitted.
`handlers` is the embedding's handler table (see `RouteEntry`). -/
structure Router where
  radixRoot : RadixNode
  staticRoutes : List (String × RouteEntry)
  recovery : Option HandlerFunc
  notFound : Option HandlerFunc
  middlewares : List Middleware
  handlers : Nat → HandlerFunc

/-- `NewRouter` (router.go 98-114): empty root, empty static map, no
recovery/notFound, no middleware. -/
def NewRouter : Router :=
  { radixRoot := .node [] .nil false [],
    staticRoutes := [],
    recovery := none,
    notFound := none,
    middlewares := [],
    handlers := fun _ => fun _ w => .ok w }

/-- `Use` (middleware file 19-21): append to the middleware list. -/
def Use (r : Router) (m : Middleware) : Router :=
  { r with middlewares := r.middlewares ++ [m] }

/-- `Recovery` (router.go 363-365). -/
def Recovery (r : Router) (fn : HandlerFunc) : Router :=
  { r with recovery := some fn }

/-- `NotFound` (router.go 367-369). -/
def NotFound (r : Router) (fn : HandlerFunc) : Router :=
  { r with notFound := some fn }

/-- `wrap` (middleware file 23-28): `h = m[i](h)` for `i` from last to
first, so the first-registered middleware is outermost. -/
def wrap (r : Router) (h : HandlerFunc) : HandlerFunc :=
  r.middlewares.foldr (fun m acc => m acc) h

/-- `Run` (router.go 403-411): both branches invoke the handler identically;
the timing/logging side effects are external. -/
def Run (_r : Router) (handler : HandlerFunc) (c : Ctx) (w : List Write) :
    HRes :=
  handler c w

/-- Go map update `staticRoutes[url] = entry` (replace or add). -/
def mapSet (m : List (String × RouteEntry)) (k : String) (v : RouteEntry) :
    List (String × RouteEntry) :=
  match m with
  | [] => [(k, v)]
  | kv :: rest => if kv.1 = k then (k, v) :: rest else kv :: mapSet rest k v

/-- `HandleFunc` (router.go 280-301): compile the template, reject a negative
bitmask (`log.Fatalf`, modelled as `none`), store fully static routes in the
dedicated map, and always insert the entry into the radix tree under its
skeleton.  `handlerId`/`fn` register the handler in the embedding's handler
table. -/
def HandleFunc (re : RegexEngine) (r : Router) (url methods : String)
    (handlerId : Nat) (fn : HandlerFunc) : Option Router :=
  match preparePattern re url with
  | none => none
  | some (patterns, isStatic, reqValidation, radixURL) =>
    let bm := MethodsToBitmask methods
    if bm < 0 then none
    else
      let entry : RouteEntry :=
        { route := url, patterns := patterns, handlerId := handlerId,
          bitmask := bm.toNat, validation := reqValidation }
      let r1 :=
        if isStatic then { r with staticRoutes := mapSet r.staticRoutes url entry }
        else r
      let r2 := { r1 with
        handlers := fun i => if i = handlerId then fn else r1.handlers i }
      some { r2 with radixRoot := insertNode r2.radixRoot radixURL entry }

/-! ## 405 handling (router.go 413-449) -/

/-- The fixed rendering order of `maskToAllowHeader` (router.go 441). -/
def allowOrder : List String :=
  ["GET", "HEAD", "POST", "PUT", "DELETE", "PATCH", "OPTIONS"]

/-- The `have` map of `maskToAllowHeader` (router.go 423-440) as its
characteristic function: the `GET` bit sets both `GET` and `HEAD`,
`POST`/`PUT`/`DELETE`/`PATCH` set themselves, `OPTIONS` is always set, and
the mask's `HEAD`/`OPTIONS`/`ANY` bits are never consulted. -/
def allowHave (mask : Nat) (m : String) : Bool :=
  if m = "GET" || m = "HEAD" then mask &&& GET != 0
  else if m = "POST" then mask &&& POST != 0
  else if m = "PUT" then mask &&& PUT != 0
  else if m = "DELETE" then mask &&& DELETE != 0
  else if m = "PATCH" then mask &&& PATCH != 0
  else if m = "OPTIONS" then true
  else false

/-- The method list rendered by `maskToAllowHeader` (router.go 442-447):
the fixed order filtered by membership in the `have` map. -/
def maskToAllowList (mask : Nat) : List String :=
  allowOrder.filter (allowHave mask)

/-- `maskToAllowHeader` (router.go 422-449). -/
def maskToAllowHeader (mask : Nat) : String :=
  String.intercalate ", " (maskToAllowList mask)

/-- `write405` (router.go 413-420): set `Allow` when nonempty, status 405,
fixed body. -/
def write405 (mask : Nat) : List Write :=
  let allow := maskToAllowHeader mask
  (if allow ≠ "" then [Write.header "Allow" allow] else []) ++
    [Write.status 405, Write.bodyText "405 method not allowed"]

/-! ## The candidate scan (router.go 519-557) -/

/-- Result of the pattern-validation loop: passed, failed (the Go
`continue outer`), or an out-of-range index into `ctx.Segments` (a Go
runtime panic). -/
inductive VRes where
  | pass
  | fail
  | oob
  deriving DecidableEq

/-- The validation loop (router.go 529-547).  Go reads
`ctx.Segments[depth].Value` before inspecting the pattern type, so a depth
beyond the segment count is an index-out-of-range panic even for a static
pattern; `_MATCH` tests the compiled regex, `_PATTERN` the named matcher,
`_SUBMATCH` requires a nonempty submatch. -/
def validatePatterns (segs : List String) :
    List Pattern → Nat → VRes
  | [], _ => .pass
  | p :: rest, depth =>
    if depth ≥ segs.length then .oob
    else
      let segment := segs.getD depth ""
      if p.type ≠ .STRING then
        match p.type with
        | .MATCH =>
          if ¬ p.regex segment then .fail
          else validatePatterns segs rest (depth + 1)
        | .PATTERN =>
          if ¬ p.fn segment then .fail
          else validatePatterns segs rest (depth + 1)
        | .SUBMATCH =>
          if ¬ p.regex segment then .fail
          else validatePatterns segs rest (depth + 1)
        | .STRING => validatePatterns segs rest (depth + 1)
      else validatePatterns segs rest (depth + 1)

/-- Outcome of the `outer` candidate loop: a winning entry, a runtime panic
from an out-of-range segment index, or exhaustion carrying the `foundPath`
flag and the accumulated `allowedMask`. -/
inductive ScanOut where
  | win (e : RouteEntry)
  | oobPanic
  | noWin (foundPath : Bool) (allowedMask : Nat)

/-- The `outer` loop (router.go 519-557): every iteration sets
`foundPath = true` and ORs the candidate's bitmask into `allowedMask`
*before* the method test; a candidate failing the method test or (when
validation is required) any pattern test is skipped; the first candidate
passing both wins immediately. -/
def scanEntries (bitmask : Nat) (segs : List String) :
    List RouteEntry → Bool → Nat → ScanOut
  | [], foundPath, allowedMask => .noWin foundPath allowedMask
  | e :: rest, _, allowedMask =>
    let allowedMask := allowedMask ||| e.bitmask
    if e.bitmask &&& bitmask = 0 then scanEntries bitmask segs rest true allowedMask
    else if e.validation then
      match validatePatterns segs e.patterns 0 with
      | .oob => .oobPanic
      | .fail => scanEntries bitmask segs rest true allowedMask
      | .pass => .win e
    else .win e

/-! ## ServeHTTP (router.go 451-572) -/

/-- The inline segment-splitting loop of `ServeHTTP` (router.go 497-515):
the maximal non-`'/'` runs flushed inside the loop, plus the trailing run —
which Go appends (and follows with the candidate scan) only inside the
`start != -1` block, i.e. only when the path does not end in `'/'`. -/
def pathSegsAux : List Char → List Char → List String × Option String
  | [], cur => ([], if cur ≠ [] then some (String.mk cur.reverse) else none)
  | c :: rest, cur =>
    if c ≠ '/' then pathSegsAux rest (c :: cur)
    else
      let r := pathSegsAux rest []
      if cur ≠ [] then (String.mk cur.reverse :: r.1, r.2) else r

/-- What the body of `ServeHTTP` produces before the deferred recovery block
runs: a normal completion or a panic, each carrying the response writes
issued so far. -/
inductive BodyOut where
  | done (w : List Write)
  | panicked (w : List Write)

def hresToBody : HRes → BodyOut
  | .ok w => .done w
  | .panicked w => .panicked w

/-- The 404 fallthrough (router.go 566-571): the custom handler when
registered (its panic propagates to the deferred block), else the built-in
minimal body. -/
def notFoundOut (r : Router) (ctx : Ctx) : BodyOut :=
  match r.notFound with
  | some h => hresToBody (h ctx [])
  | none => .done [Write.status 404, Write.bodyText "404 page not found"]

/-- The body of `ServeHTTP` (router.go 471-571), after the context was
acquired: static fast path (lookup, method check, middleware-wrapped run or
405 with the static entry's mask); otherwise radix search, inline segment
split, and — only when the path has a trailing non-`'/'` run — the candidate
scan, whose winner's handler is run *without* `wrap`; finally 405 with the
accumulated mask when a candidate was seen, else 404. -/
def serveBody (r : Router) (method path : String) (ctx : Ctx) : BodyOut :=
  let t := ((r.staticRoutes.find? (fun kv => kv.1 = path)).map (fun kv => kv.2)).getD
    emptyRouteEntry
  if t.route ≠ "" then
    let mbit := getBitmaskIndex method
    if t.bitmask &&& mbit ≠ 0 then
      let ctx1 := { ctx with params := [], paramMap := none, entries := [] }
      let handler := wrap r (r.handlers t.handlerId)
      hresToBody (Run r handler ctx1 [])
    else .done (write405 t.bitmask)
  else
    let sr := searchAll r.radixRoot path
    if sr.2 then
      let ctx1 := { ctx with entries := ctx.entries ++ sr.1 }
      let split := pathSegsAux path.data []
      match split.2 with
      | none =>
        -- path ends in '/': the scan block is skipped, `foundPath` stays
        -- false, fall through to 404 with the inner segments recorded
        notFoundOut r { ctx1 with segments := ctx1.segments ++ split.1 }
      | some trailing =>
        let ctx2 := { ctx1 with
          segments := ctx1.segments ++ split.1 ++ [trailing] }
        let bitmask := getBitmaskIndex method
        match scanEntries bitmask ctx2.segments ctx2.entries false 0 with
        | .win e =>
          let ctx3 := { ctx2 with
            params := [], paramMap := none, entries := [e] }
          hresToBody (Run r (r.handlers e.handlerId) ctx3 [])
        | .oobPanic => .panicked []
        | .noWin foundPath allowedMask =>
          if foundPath then .done (write405 allowedMask)
          else notFoundOut r ctx2
    else notFoundOut r ctx

/-! ## The deferred recovery block (router.go 390-401, 454-469) -/

/-- The observable effect of one `ServeHTTP` invocation: the ordered
response writes, how many times the context was returned to the pool, and
whether a panic escaped `ServeHTTP` into the transport layer. -/
structure Final where
  writes : List Write
  puts : Nat
  escaped : Bool
  deriving DecidableEq

/-- `secondaryRecover` (router.go 390-401) as its observable effect given
whether the goroutine is panicking when the deferred call runs: extra
writes, pool puts, and whether the panic keeps unwinding.  The Go body wraps
its work in an immediately invoked function literal
`func() { if message := recover(); ... }()`.  That literal is *called*, not
deferred, so by the Go specification ("Handling panics": `recover` returns
`nil` when it was not called directly by a deferred function) the
`recover()` inside it returns `nil` whether or not a panic is active: the
error write is dead code, the unconditional `contextPool.Put(ctx)` runs, and
an active panic continues to unwind. -/
def secondaryRecover (panicking : Bool) (w : List Write) :
    List Write × Nat × Bool :=
  (w, 1, panicking)

/-- The deferred function of `ServeHTTP` (router.go 454-469).  On a normal
body: `recover()` is `nil`, one `PutContext`.  On a panic with no recovery
handler: generic 500 (`http.Error`), one `PutContext`.  On a panic with a
recovery handler: the handler runs with `secondaryRecover` deferred behind
it — if it returns normally, control reaches `PutContext(ctx)` and then the
deferred `secondaryRecover` puts the context a second time; if it panics,
`secondaryRecover` runs while panicking (one put, no fallback write, see
`secondaryRecover`), the trailing `PutContext` line is never reached, and
the panic escapes `ServeHTTP`. -/
def deferBlock (r : Router) (ctx : Ctx) : BodyOut → Final
  | .done w => { writes := w, puts := 1, escaped := false }
  | .panicked w =>
    match r.recovery with
    | none =>
      { writes := w ++ [Write.status 500, Write.bodyText "Internal Server Error"],
        puts := 1, escaped := false }
    | some rec =>
      match rec ctx w with
      | .ok w2 =>
        let s := secondaryRecover false w2
        { writes := s.1, puts := 1 + s.2.1, escaped := s.2.2 }
      | .panicked w2 =>
        let s := secondaryRecover true w2
        { writes := s.1, puts := s.2.1, escaped := s.2.2 }

/-- `ServeHTTP` (router.go 451-572): acquire and reset a pooled context, run
the body, then the deferred recovery/release block.  `c0` ranges over
whatever the pool yields. -/
def ServeHTTP (r : Router) (method path : String) (c0 : Ctx) : Final :=
  let ctx := GetContext c0
  deferBlock r ctx (serveBody r method path ctx)

/-! ## Concrete scenario material

The regex engine instance is irrelevant to every scenario: each registered
pattern resolves through the named-matcher tables (or is the default `any`),
so neither `ok` nor `accepts` is ever consulted. -/

def noRegex : RegexEngine := { ok := fun _ => true, accepts := fun _ _ => false }

/-- A handler writing a 200 status and a fixed body. -/
def hBody (s : String) : HandlerFunc :=
  fun _ w => .ok (w ++ [.status 200, .bodyText s])

/-- A handler writing a 200 status and the value of the named route
parameter (the empty string when absent). -/
def hParam (name : String) : HandlerFunc :=
  fun c w => .ok (w ++ [.status 200, .bodyText (c.Param name).1])

/-- A handler that panics before writing anything. -/
def hPanic : HandlerFunc := fun _ w => .panicked w

/-- A marker middleware: writes `"MW"` and calls the next handler. -/
def mwMark : Middleware := fun next => fun c w => next c (w ++ [.bodyText "MW"])

/-- C1 scenario: one registered middleware, a fully static route and a
parameterized route, both `GET`. -/
def c1Router : Router :=
  (((HandleFunc noRegex (Use NewRouter mwMark) "/users" "GET" 1 (hBody "S")).bind
    (fun r => HandleFunc noRegex r "/user/<id>" "GET" 2 (hBody "P"))).getD NewRouter)

/-- C2 scenario: a panicking handler and a recovery handler that returns
normally after writing its response. -/
def c2Router : Router :=
  Recovery ((HandleFunc noRegex NewRouter "/panic" "GET" 1 hPanic).getD NewRouter)
    (fun _ w => .ok (w ++ [.status 418, .bodyText "Recovered"]))

/-- C3 scenario: a panicking handler and a recovery handler that itself
panics. -/
def c3Router : Router :=
  Recovery ((HandleFunc noRegex NewRouter "/panic" "GET" 1 hPanic).getD NewRouter)
    (fun _ w => .panicked w)

/-- C4 scenario: two parameterized routes with different skeletons that both
structurally match `/u/hello/p`; the wildcard-at-depth-1 skeleton is
registered first. -/
def c4Router : Router :=
  (((HandleFunc noRegex NewRouter "/u/<x:isLowerAlpha>/p" "GET" 1 (hBody "A")).bind
    (fun r => HandleFunc noRegex r "/u/hello/<y:isLowerAlpha>" "GET" 2 (hBody "B"))).getD
    NewRouter)

/-- C5 scenario: only `/user/<id:isDigits>` registered, for `GET`. -/
def c5RouterOpt : Option Router :=
  HandleFunc noRegex NewRouter "/user/<id:isDigits>" "GET" 1 (hParam "id")

def c5Router : Router := c5RouterOpt.getD NewRouter

/-- C6 scenario: a single static route accepting only `POST`. -/
def c6Router : Router :=
  (HandleFunc noRegex NewRouter "/p" "POST" 1 (hBody "C")).getD NewRouter

/-- C7 scenario (static half): the same fully static `(template, method)`
pair registered twice with distinct handlers. -/
def c7StaticRouter : Router :=
  (((HandleFunc noRegex NewRouter "/same" "GET" 1 (hBody "one")).bind
    (fun r => HandleFunc noRegex r "/same" "GET" 2 (hBody "two"))).getD NewRouter)

/-- C7 scenario (parameterized half): the same parameterized
`(template, method)` pair registered twice with distinct handlers. -/
def c7ParamRouter : Router :=
  (((HandleFunc noRegex NewRouter "/u/<id:isDigits>" "GET" 1 (hBody "A")).bind
    (fun r => HandleFunc noRegex r "/u/<id:isDigits>" "GET" 2 (hBody "B"))).getD NewRouter)

/-- C10 scenario: a three-segment route whose middle segment requires
validation. -/
def c10Router : Router :=
  (HandleFunc noRegex NewRouter "/a/<x:isLowerAlpha>/b" "GET" 1 (hBody "X")).getD NewRouter

/-- Specification-side predicate (for the amended C4, following the spec's
words): a candidate "passes method and pattern checks" when its bitmask
meets the request's method bit and, if validation is required, the
validation loop passes. -/
def specEntryPasses (bitmask : Nat) (segs : List String) (e : RouteEntry) :
    Bool :=
  (e.bitmask &&& bitmask != 0) &&
    (!e.validation ||
      match validatePatterns segs e.patterns 0 with
      | .pass => true
      | _ => false)

/-- A minimal validation-free entry used to witness the amended C4. -/
def c4WitnessEntry : RouteEntry :=
  { route := "/w", patterns := [], handlerId := 9, bitmask := 1,
    validation := false }

/-! ## Claim theorems -/

/-- **C1** (code bug).  With middleware registered, the static fast path
runs the winner through `wrap` — its writes start with the middleware's
marker — but the radix candidate scan runs the winning entry's handler
directly (router.go:555 has `r.Run(w, req, entry.Handler, ctx)`, not
`r.wrap(...)`): dispatching the parameterized route produces the handler's
writes with no middleware marker, contradicting the claim that the winner's
handler is run wrapped in the same chain applied on the static fast path. -/
theorem c1_middleware_skipped_on_radix_path :
    ServeHTTP c1Router "GET" "/users" newCtx =
      { writes := [.bodyText "MW", .status 200, .bodyText "S"], puts := 1,
        escaped := false } ∧
    ServeHTTP c1Router "GET" "/user/42" newCtx =
      { writes := [.status 200, .bodyText "P"], puts := 1, escaped := false } := by
  constructor <;> decide

/-- **C2** (code bug).  When the handler panics and the registered recovery
handler returns normally, the deferred block reaches `PutContext(ctx)`
(router.go:468) *and* its deferred `secondaryRecover` performs
`contextPool.Put(ctx)` again (router.go:398): the context is released twice
on this exit path, not exactly once. -/
theorem c2_double_release_on_recovered_panic :
    ServeHTTP c2Router "GET" "/panic" newCtx =
      { writes := [.status 418, .bodyText "Recovered"], puts := 2,
        escaped := false } := by
  decide

/-- **C3** (code bug).  When the recovery handler itself panics, the
`recover()` inside `secondaryRecover` sits in a nested immediately invoked
closure — not directly in the deferred function — so it returns `nil`
(Go spec, Handling panics): no fallback 500 is written, the context is
released exactly once, and the panic escapes `ServeHTTP` (`escaped = true`),
contradicting the claim that the second guard catches it and writes a fixed
fallback response. -/
theorem c3_recovery_panic_escapes :
    ServeHTTP c3Router "GET" "/panic" newCtx =
      { writes := [], puts := 1, escaped := true } := by
  decide

/-- **C5** (counterexample).  `GET /user/abc` structurally matches
`/user/<id:isDigits>` and fails its pattern check, yet the response is a
405 with `Allow: GET, HEAD, OPTIONS` — not the 404 the claim requires —
because the scan sets `foundPath = true` for every candidate before the
method and pattern tests (router.go:521). -/
theorem c5_pattern_failure_gives_405 :
    ServeHTTP c5Router "GET" "/user/abc" newCtx =
      { writes := [.header "Allow" "GET, HEAD, OPTIONS", .status 405,
                   .bodyText "405 method not allowed"], puts := 1,
        escaped := false } ∧
    (ServeHTTP c5Router "GET" "/user/abc" newCtx).writes.getD 1 (.status 0) ≠
      .status 404 := by
  constructor <;> decide

/-- **C5** (amended).  Registration of `/user/<id:isDigits>` for `GET`
succeeds; `GET /user/42` runs the handler with `Param("id") = "42"` and
returns 200; `GET /user/abc` — a structural match on which every candidate
fails pattern validation — returns 405 with `Allow: GET, HEAD, OPTIONS`
(the dispatcher answers 405 whenever any candidate matched structurally,
reserving 404 for paths with no structural match, as for `/nope`). -/
theorem c5_amended_digit_route_dispatch :
    c5RouterOpt.isSome = true ∧
    ServeHTTP c5Router "GET" "/user/42" newCtx =
      { writes := [.status 200, .bodyText "42"], puts := 1, escaped := false } ∧
    ServeHTTP c5Router "GET" "/user/abc" newCtx =
      { writes := [.header "Allow" "GET, HEAD, OPTIONS", .status 405,
                   .bodyText "405 method not allowed"], puts := 1,
        escaped := false } ∧
    ServeHTTP c5Router "GET" "/nope" newCtx =
      { writes := [.status 404, .bodyText "404 page not found"], puts := 1,
        escaped := false } := by
  refine ⟨rfl, ?_, ?_, ?_⟩ <;> decide

/-- **C7** (counterexample).  Registering the fully static `( /same , GET )`
pair twice and dispatching `GET /same` runs the *second*-registered handler
(body `"two"`): the dedicated static map retains only the last registration
(`r.staticRoutes[url] = entry` overwrites) and the static fast path never
consults the radix leaf where both entries co-reside in order. -/
theorem c7_static_duplicate_runs_last :
    ServeHTTP c7StaticRouter "GET" "/same" newCtx =
      { writes := [.status 200, .bodyText "two"], puts := 1, escaped := false } ∧
    (searchAll c7StaticRouter.radixRoot "/same").1.map (fun e => e.handlerId) =
      [1, 2] := by
  constructor <;> decide

/-- **C7** (amended).  Registering the same `(template, method)` pair twice
yields two entries co-resident at one radix leaf in registration order; for
a parameterized template dispatch selects the first-registered entry that
passes method and pattern checks; for a fully static template the
zero-parameter static map keeps only the last registration and the static
fast path dispatches that entry, shadowing the radix leaf. -/
theorem c7_amended_duplicate_semantics :
    (searchAll c7ParamRouter.radixRoot "/u/*").1.map (fun e => e.handlerId) =
      [1, 2] ∧
    ServeHTTP c7ParamRouter "GET" "/u/7" newCtx =
      { writes := [.status 200, .bodyText "A"], puts := 1, escaped := false } ∧
    (searchAll c7StaticRouter.radixRoot "/same").1.map (fun e => e.handlerId) =
      [1, 2] ∧
    ServeHTTP c7StaticRouter "GET" "/same" newCtx =
      { writes := [.status 200, .bodyText "two"], puts := 1, escaped := false } := by
  refine ⟨?_, ?_, ?_, ?_⟩ <;> decide

/-- **C10** (code bug).  For the registered route `/a/<x:isLowerAlpha>/b`
and the request path `/a//b` (an empty segment between consecutive slashes),
the stored `*` consumes zero bytes, so the radix search returns a candidate
with 3 patterns although the path has only 2 non-empty segments; the
validation loop then reads `ctx.Segments[2]` out of range — a runtime panic
that the dispatcher's own recover converts into a generic 500. -/
theorem c10_out_of_bounds_candidate :
    (searchAll c10Router.radixRoot "/a//b").1.map (fun e => e.patterns.length) =
      [3] ∧
    (splitPath "/a//b").length = 2 ∧
    (searchAll c10Router.radixRoot "/a//b").1.map
      (fun e => validatePatterns (splitPath "/a//b") e.patterns 0) = [.oob] ∧
    ServeHTTP c10Router "GET" "/a//b" newCtx =
      { writes := [.status 500, .bodyText "Internal Server Error"], puts := 1,
        escaped := false } := by
  refine ⟨?_, ?_, ?_, ?_⟩ <;> decide

/-- **C4** (counterexample).  `/u/<x:isLowerAlpha>/p` (skeleton `/u/*/p`)
is registered *before* `/u/hello/<y:isLowerAlpha>` (skeleton `/u/hello/*`);
both structurally match `/u/hello/p` and both pass method and pattern
checks, yet the candidate list arrives in DFS order — the literal branch
before the wildcard branch — and the *second*-registered entry wins,
refuting first-inserted-wins across skeletons. -/
theorem c4_cross_skeleton_registration_order_fails :
    (searchAll c4Router.radixRoot "/u/hello/p").1.map (fun e => e.handlerId) =
      [2, 1] ∧
    (searchAll c4Router.radixRoot "/u/hello/p").1.map
      (specEntryPasses (getBitmaskIndex "GET") (splitPath "/u/hello/p")) =
      [true, true] ∧
    ServeHTTP c4Router "GET" "/u/hello/p" newCtx =
      { writes := [.status 200, .bodyText "B"], puts := 1, escaped := false } := by
  refine ⟨?_, ?_, ?_⟩ <;> decide

/-- The validation loop cannot index out of range while the remaining
pattern count fits in the remaining segments. -/
theorem validatePatterns_ne_oob (segs : List String) :
    ∀ (pats : List Pattern) (depth : Nat),
      depth + pats.length ≤ segs.length →
      validatePatterns segs pats depth ≠ VRes.oob := by
  intro pats
  induction pats with
  | nil =>
    intro depth _
    simp [validatePatterns]
  | cons p rest ih =>
    intro depth h
    have hd : ¬ depth ≥ segs.length := by
      simp only [List.length_cons] at h
      omega
    have hrec := ih (depth + 1)
      (by simp only [List.length_cons] at h; omega)
    simp only [validatePatterns, if_neg hd]
    split
    · split <;> first | exact hrec | (split <;> first | exact hrec | simp)
    · exact hrec

/-- **C4** (amended).  The dispatcher's candidate scan selects the first
entry *in candidate-list order* that passes the method check and (when
required) every pattern check; when none passes it reports `foundPath`
(some candidate was seen) together with the OR of every candidate's
bitmask.  The candidate order is the radix DFS order — literal branches
before wildcard branches at each node, entries within one leaf in
registration order — so registration order breaks ties only among entries
sharing a skeleton (see `c4_cross_skeleton_registration_order_fails` for
the cross-skeleton order). -/
theorem c4_amended_first_passing_candidate_wins (bitmask : Nat)
    (segs : List String) :
    ∀ (es : List RouteEntry) (fp : Bool) (am : Nat),
      (∀ e ∈ es, e.patterns.length ≤ segs.length) →
      scanEntries bitmask segs es fp am =
        match es.find? (specEntryPasses bitmask segs) with
        | some e => ScanOut.win e
        | none =>
          ScanOut.noWin (fp || !es.isEmpty)
            (es.foldl (fun a e => a ||| e.bitmask) am) := by
  intro es
  induction es with
  | nil =>
    intro fp am _
    simp [scanEntries]
  | cons e rest ih =>
    intro fp am h
    have he : e.patterns.length ≤ segs.length := h e (List.mem_cons_self e rest)
    have hr : ∀ x ∈ rest, x.patterns.length ≤ segs.length :=
      fun x hx => h x (List.mem_cons_of_mem e hx)
    have hnoob := validatePatterns_ne_oob segs e.patterns 0 (by omega)
    by_cases hm : e.bitmask &&& bitmask = 0
    · have hspec : ¬ specEntryPasses bitmask segs e = true := by
        simp [specEntryPasses, hm]
      have hl : scanEntries bitmask segs (e :: rest) fp am =
          scanEntries bitmask segs rest true (am ||| e.bitmask) := by
        simp [scanEntries, hm]
      rw [hl, ih true (am ||| e.bitmask) hr, List.find?_cons_of_neg _ hspec]
      cases hfind : rest.find? (specEntryPasses bitmask segs) <;> simp [hfind]
    · by_cases hv : e.validation
      · cases hval : validatePatterns segs e.patterns 0 with
        | oob => exact absurd hval hnoob
        | pass =>
          have hspec : specEntryPasses bitmask segs e = true := by
            simp [specEntryPasses, hm, hval]
          have hl : scanEntries bitmask segs (e :: rest) fp am =
              ScanOut.win e := by
            simp [scanEntries, hm, hv, hval]
          rw [hl, List.find?_cons_of_pos _ hspec]
        | fail =>
          have hspec : ¬ specEntryPasses bitmask segs e = true := by
            simp [specEntryPasses, hm, hv, hval]
          have hl : scanEntries bitmask segs (e :: rest) fp am =
              scanEntries bitmask segs rest true (am ||| e.bitmask) := by
            simp [scanEntries, hm, hv, hval]
          rw [hl, ih true (am ||| e.bitmask) hr, List.find?_cons_of_neg _ hspec]
          cases hfind : rest.find? (specEntryPasses bitmask segs) <;> simp [hfind]
      · have hspec : specEntryPasses bitmask segs e = true := by
          simp [specEntryPasses, hm, hv]
        have hl : scanEntries bitmask segs (e :: rest) fp am =
            ScanOut.win e := by
          simp [scanEntries, hm, hv]
        rw [hl, List.find?_cons_of_pos _ hspec]

/-- Witness for the amended C4 at a concrete candidate list. -/
theorem c4_amended_witness :
    scanEntries 1 [] [c4WitnessEntry] false 0 =
      match [c4WitnessEntry].find? (specEntryPasses 1 []) with
      | some e => ScanOut.win e
      | none =>
        ScanOut.noWin (false || !(List.isEmpty [c4WitnessEntry]))
          ([c4WitnessEntry].foldl (fun a e => a ||| e.bitmask) 0) :=
  c4_amended_first_passing_candidate_wins 1 [] [c4WitnessEntry] false 0
    (by
      intro e hee
      rcases List.mem_singleton.mp hee with rfl
      decide)

/-- **C6** (counterexample).  A structural match accepting only `POST`,
hit with `GET`, yields a 405 whose `Allow` header is `POST, OPTIONS`:
`OPTIONS` is not among the methods accepted by any structurally matching
entry, so the header exceeds the exact union the claim requires. -/
theorem c6_allow_exceeds_union :
    ServeHTTP c6Router "GET" "/p" newCtx =
      { writes := [.header "Allow" "POST, OPTIONS", .status 405,
                   .bodyText "405 method not allowed"], puts := 1,
        escaped := false } ∧
    maskToAllowList POST = ["POST", "OPTIONS"] ∧
    POST &&& OPTIONS = 0 := by
  refine ⟨?_, ?_, ?_⟩ <;> decide

/-- **C6** (amended).  A method mismatch yields a 405 whose `Allow` header
renders the accumulated bitmask through the fixed policy of
`maskToAllowHeader`: it lists `GET` and `HEAD` when the mask has the `GET`
bit, each of `POST`/`PUT`/`DELETE`/`PATCH` when the mask has its bit,
always `OPTIONS`, and ignores the mask's `HEAD`/`OPTIONS`/`ANY` bits.  (On
the radix path the mask is the OR of all structurally matching candidates'
bitmasks; on the static fast path it is the static entry's bitmask
alone.) -/
theorem c6_amended_allow_characterization (mask : Nat) :
    maskToAllowList mask =
      (if mask &&& GET != 0 then ["GET", "HEAD"] else []) ++
      (if mask &&& POST != 0 then ["POST"] else []) ++
      (if mask &&& PUT != 0 then ["PUT"] else []) ++
      (if mask &&& DELETE != 0 then ["DELETE"] else []) ++
      (if mask &&& PATCH != 0 then ["PATCH"] else []) ++
      ["OPTIONS"] := by
  cases hb1 : (mask &&& GET != 0) <;> cases hb2 : (mask &&& POST != 0) <;>
    cases hb3 : (mask &&& PUT != 0) <;> cases hb4 : (mask &&& DELETE != 0) <;>
      cases hb5 : (mask &&& PATCH != 0) <;>
        simp [maskToAllowList, allowOrder, allowHave, List.filter,
          hb1, hb2, hb3, hb4, hb5]

/-- **C8** (confirmed).  Every matcher in the fixed tables rejects the
empty string, except the explicit always-true matchers — `any` in
`FunctionMatchers` and `.*` in `PatternMatchers` — which accept every
input including the empty string. -/
theorem c8_matchers_reject_empty_except_any :
    (∀ p ∈ FunctionMatchers,
      (p.1 = "any" → ∀ s, p.2 s = true) ∧ (p.1 ≠ "any" → p.2 "" = false)) ∧
    (∀ p ∈ PatternMatchers,
      (p.1 = ".*" → ∀ s, p.2 s = true) ∧ (p.1 ≠ ".*" → p.2 "" = false)) := by
  constructor
  · intro p hp
    unfold FunctionMatchers at hp
    fin_cases hp <;>
      first
      | exact ⟨fun _ s => rfl, fun hne => absurd rfl hne⟩
      | exact ⟨fun hh => absurd hh (by decide), fun _ => by decide⟩
  · intro p hp
    unfold PatternMatchers at hp
    fin_cases hp <;>
      first
      | exact ⟨fun _ s => rfl, fun hne => absurd rfl hne⟩
      | exact ⟨fun hh => absurd hh (by decide), fun _ => by decide⟩

/-- Witness for C8 at a concrete table member. -/
theorem c8_matchers_witness : isDigits "" = false :=
  (c8_matchers_reject_empty_except_any.1 ("isDigits", isDigits)
    (by simp [FunctionMatchers])).2 (by decide)

/-- **C9** (confirmed).  Whatever the pool yields — a fresh context or one
previously released after arbitrary use — `GetContext` returns it with
empty `Params`/`Segments`/`Entries`, an empty `Data` map, no memoized
`ParamMap`, `Aborted` false, and each backing capacity at most the fixed
1024 ceiling (a capacity above the ceiling is replaced by a fresh
capacity-8 slice). -/
theorem c9_acquired_context_is_reset (c : Ctx) :
    (GetContext c).params = [] ∧ (GetContext c).segments = [] ∧
    (GetContext c).entries = [] ∧ (GetContext c).data = [] ∧
    (GetContext c).paramMap = none ∧ (GetContext c).aborted = false ∧
    (GetContext c).paramsCap ≤ 1024 ∧
    (GetContext c).segmentsCap ≤ 1024 ∧
    (GetContext c).entriesCap ≤ 1024 := by
  unfold GetContext Ctx.reset
  refine ⟨rfl, rfl, rfl, rfl, rfl, rfl, ?_, ?_, ?_⟩ <;> dsimp only <;>
    split <;> omega

end NLG
